import Mathlib

/-!
Verification of the wiggly-border generator's geometry pipeline.

The JavaScript sources are embedded shallowly:
* JS numbers are modelled as `ℚ` (all arithmetic in the pipeline is field
  arithmetic, `Math.floor`, and `Math.round`);
* `Math.round q` is `⌊q + 1/2⌋` (JS rounds halves toward positive infinity);
* `Math.sin` is an opaque platform function; it is modelled as an abstract
  function `s : ℚ → ℚ` threaded through the definitions, about which the
  theorems assume at most `∀ x, |s x| ≤ 1`;
* the emitted SVG path string is modelled by its token structure: a list of
  `PathCmd` (move-to, cubic-curve-to, close-path) commands, abstracting away
  decimal formatting of the coordinates.

Two generations of the pipeline exist in the repository: the aspect-aware one
(`wiggly-border.js`) and the older fixed 400×300 one.  Both are embedded.
-/

/-- A coordinate pair, mirroring the `{x, y}` point objects of the source. -/
structure Point where
  x : ℚ
  y : ℚ
deriving DecidableEq

/-- One token of the emitted SVG path data string: `M x y`, a
`C cp1 cp2 p` cubic segment, or the closing `Z`. -/
inductive PathCmd where
  | moveTo : Point → PathCmd
  | curveTo : Point → Point → Point → PathCmd
  | closePath : PathCmd
deriving DecidableEq

/-- Recognizer for move-to commands. -/
def isMove : PathCmd → Bool
  | PathCmd.moveTo _ => true
  | _ => false

/-- Recognizer for cubic-curve commands. -/
def isCurve : PathCmd → Bool
  | PathCmd.curveTo _ _ _ => true
  | _ => false

/-- Recognizer for the close-path command. -/
def isClose : PathCmd → Bool
  | PathCmd.closePath => true
  | _ => false

/-- The option object taken by the aspect-aware `generateWigglyPath`. -/
structure WiggleOptions where
  waveAmplitude : ℚ
  waveSegmentSize : ℚ
  borderWidth : ℚ
  targetWidth : ℚ
  targetHeight : ℚ

/-- Result of `calculateViewBox`: the working coordinate-space dimensions. -/
structure ViewBox where
  width : ℚ
  height : ℚ
deriving DecidableEq

/-- Result of `calculateSegments`: per-axis segment counts. -/
structure SegmentCounts where
  horizontal : ℤ
  vertical : ℤ
deriving DecidableEq

/-- The working rectangle bounds (`left`, `right`, `top`, `bottom` locals of
`generateWigglyPath` in `wiggly-border.js`). -/
structure Rect where
  left : ℚ
  right : ℚ
  top : ℚ
  bottom : ℚ
deriving DecidableEq

/-- Return value of the aspect-aware `generateWigglyPath`. -/
structure PathResult where
  pathData : List PathCmd
  viewBoxWidth : ℚ
  viewBoxHeight : ℚ

/-- `BASE_VIEWBOX_SIZE` of `wiggly-border.js`. -/
def BASE_VIEWBOX_SIZE : ℚ := 400

/-- The per-edge seed constants `EDGE_SEEDS` (identical in both source files). -/
structure EdgeSeeds where
  top : ℚ
  right : ℚ
  bottom : ℚ
  left : ℚ

/-- The seed values `{top: 1.23, right: 4.56, bottom: 7.89, left: 2.34}`. -/
def EDGE_SEEDS : EdgeSeeds := ⟨1.23, 4.56, 7.89, 2.34⟩

/-- JavaScript `Math.round`: rounds half toward positive infinity. -/
def jsRound (q : ℚ) : ℤ := ⌊q + 1 / 2⌋

/-- `getOrganicOffset` (identical in both source files), with `Math.sin`
abstracted as `s`. -/
def getOrganicOffset (s : ℚ → ℚ) (index baseAmplitude seed : ℚ) : ℚ :=
  let variation :=
    s (index * 1.7 + seed) * 0.3 + s (index * 2.3 + seed * 1.5) * 0.2 +
      s (index * 0.9 + seed * 0.7) * 0.25
  baseAmplitude * (0.5 + variation)

/-- `generateEdgePoints` (identical in both source files).  The loop
`for (i = 0; i <= segments; i++)` becomes a map over `List.range (segments+1)`.
Corner indices (`0` and `segments`) are pinned; interior indices are displaced
along `perpDirection` by the organic offset with alternating sign. -/
def generateEdgePoints (s : ℚ → ℚ) (startX startY endX endY : ℚ) (segments : ℕ)
    (amplitude seed : ℚ) (perpDirection : Point) : List Point :=
  let dx := (endX - startX) / (segments : ℚ)
  let dy := (endY - startY) / (segments : ℚ)
  (List.range (segments + 1)).map fun (i : ℕ) =>
    let baseX := startX + dx * (i : ℚ)
    let baseY := startY + dy * (i : ℚ)
    if i = 0 ∨ i = segments then
      ⟨baseX, baseY⟩
    else
      let offset := getOrganicOffset s (i : ℚ) amplitude seed
      let direction : ℚ := if i % 2 = 0 then 1 else -1
      ⟨baseX + perpDirection.x * offset * direction,
       baseY + perpDirection.y * offset * direction⟩

/-- `generateSmoothPath` (identical in both source files).  The loop over
`i = 0 .. points.length - 2` becomes a map over `List.range (points.length - 1)`.
`points[Math.max(0, i - 1)]` is `points.getD (i - 1)` since truncated natural
subtraction realizes the clamp at zero; all accesses are in range, so the
`getD` default is never used. -/
def generateSmoothPath (points : List Point) : List PathCmd :=
  if points.length < 2 then []
  else
    let tension : ℚ := 0.5
    PathCmd.moveTo (points.getD 0 ⟨0, 0⟩) ::
      (List.range (points.length - 1)).map fun i =>
        let p0 := points.getD (i - 1) ⟨0, 0⟩
        let p1 := points.getD i ⟨0, 0⟩
        let p2 := points.getD (i + 1) ⟨0, 0⟩
        let p3 := points.getD (min (points.length - 1) (i + 2)) ⟨0, 0⟩
        PathCmd.curveTo
          ⟨p1.x + (p2.x - p0.x) * tension / 3, p1.y + (p2.y - p0.y) * tension / 3⟩
          ⟨p2.x - (p3.x - p1.x) * tension / 3, p2.y - (p3.y - p1.y) * tension / 3⟩
          p2

/-- `calculateViewBox` of `wiggly-border.js`. -/
def calculateViewBox (targetWidth targetHeight : ℚ) : ViewBox :=
  let aspect := targetWidth / targetHeight
  if 1 ≤ aspect then
    ⟨BASE_VIEWBOX_SIZE * aspect, BASE_VIEWBOX_SIZE⟩
  else
    ⟨BASE_VIEWBOX_SIZE, BASE_VIEWBOX_SIZE / aspect⟩

/-- `calculateSegments` of `wiggly-border.js`: `Math.max(4, Math.round(len/size))`
on each axis. -/
def calculateSegments (horizontalLength verticalLength waveSegmentSize : ℚ) :
    SegmentCounts :=
  ⟨max 4 (jsRound (horizontalLength / waveSegmentSize)),
   max 4 (jsRound (verticalLength / waveSegmentSize))⟩

/-- The `padding`/`left`/`right`/`top`/`bottom` locals of the aspect-aware
`generateWigglyPath`, as a function of the coordinate-space dimensions. -/
def workingRect (viewBoxWidth viewBoxHeight waveAmplitude borderWidth : ℚ) : Rect :=
  let padding := waveAmplitude + borderWidth
  ⟨padding, viewBoxWidth - padding, padding, viewBoxHeight - padding⟩

/-- The `segments` local of the aspect-aware `generateWigglyPath`:
`calculateSegments` applied to the working rectangle's edge lengths. -/
def edgeCounts (viewBoxWidth viewBoxHeight waveAmplitude waveSegmentSize borderWidth : ℚ) :
    SegmentCounts :=
  let r := workingRect viewBoxWidth viewBoxHeight waveAmplitude borderWidth
  calculateSegments (r.right - r.left) (r.bottom - r.top) waveSegmentSize

/-- The `topPoints` local of the aspect-aware `generateWigglyPath`. -/
def topPointsOf (s : ℚ → ℚ) (w h a g b : ℚ) : List Point :=
  let r := workingRect w h a b
  generateEdgePoints s r.left r.top r.right r.top
    (edgeCounts w h a g b).horizontal.toNat a EDGE_SEEDS.top ⟨0, -1⟩

/-- The `rightPoints` local of the aspect-aware `generateWigglyPath`. -/
def rightPointsOf (s : ℚ → ℚ) (w h a g b : ℚ) : List Point :=
  let r := workingRect w h a b
  generateEdgePoints s r.right r.top r.right r.bottom
    (edgeCounts w h a g b).vertical.toNat a EDGE_SEEDS.right ⟨1, 0⟩

/-- The `bottomPoints` local of the aspect-aware `generateWigglyPath`. -/
def bottomPointsOf (s : ℚ → ℚ) (w h a g b : ℚ) : List Point :=
  let r := workingRect w h a b
  generateEdgePoints s r.right r.bottom r.left r.bottom
    (edgeCounts w h a g b).horizontal.toNat a EDGE_SEEDS.bottom ⟨0, 1⟩

/-- The `leftPoints` local of the aspect-aware `generateWigglyPath`. -/
def leftPointsOf (s : ℚ → ℚ) (w h a g b : ℚ) : List Point :=
  let r := workingRect w h a b
  generateEdgePoints s r.left r.bottom r.left r.top
    (edgeCounts w h a g b).vertical.toNat a EDGE_SEEDS.left ⟨-1, 0⟩

/-- The `allPoints` local: `[...topPoints, ...rightPoints.slice(1),
...bottomPoints.slice(1), ...leftPoints.slice(1, -1)]`. -/
def allPointsOf (s : ℚ → ℚ) (w h a g b : ℚ) : List Point :=
  topPointsOf s w h a g b ++ (rightPointsOf s w h a g b).drop 1 ++
    (bottomPointsOf s w h a g b).drop 1 ++
    ((leftPointsOf s w h a g b).drop 1).dropLast

/-- The aspect-aware pipeline downstream of the coordinate-space sizer: the
path data built by `generateWigglyPath` from given coordinate-space dimensions. -/
def wigglyPathFromViewBox (s : ℚ → ℚ) (w h a g b : ℚ) : List PathCmd :=
  generateSmoothPath (allPointsOf s w h a g b) ++ [PathCmd.closePath]

/-- The `viewBox` local of the aspect-aware `generateWigglyPath`. -/
def viewBoxOf (o : WiggleOptions) : ViewBox :=
  calculateViewBox o.targetWidth o.targetHeight

/-- The segment counts computed inside `generateWigglyPath` for an option set. -/
def wigglySegments (o : WiggleOptions) : SegmentCounts :=
  edgeCounts (viewBoxOf o).width (viewBoxOf o).height o.waveAmplitude
    o.waveSegmentSize o.borderWidth

/-- The `topPoints` local of `generateWigglyPath` for an option set. -/
def wigglyTopPoints (s : ℚ → ℚ) (o : WiggleOptions) : List Point :=
  topPointsOf s (viewBoxOf o).width (viewBoxOf o).height o.waveAmplitude
    o.waveSegmentSize o.borderWidth

/-- The `rightPoints` local of `generateWigglyPath` for an option set. -/
def wigglyRightPoints (s : ℚ → ℚ) (o : WiggleOptions) : List Point :=
  rightPointsOf s (viewBoxOf o).width (viewBoxOf o).height o.waveAmplitude
    o.waveSegmentSize o.borderWidth

/-- The `bottomPoints` local of `generateWigglyPath` for an option set. -/
def wigglyBottomPoints (s : ℚ → ℚ) (o : WiggleOptions) : List Point :=
  bottomPointsOf s (viewBoxOf o).width (viewBoxOf o).height o.waveAmplitude
    o.waveSegmentSize o.borderWidth

/-- The `leftPoints` local of `generateWigglyPath` for an option set. -/
def wigglyLeftPoints (s : ℚ → ℚ) (o : WiggleOptions) : List Point :=
  leftPointsOf s (viewBoxOf o).width (viewBoxOf o).height o.waveAmplitude
    o.waveSegmentSize o.borderWidth

/-- The `allPoints` local of `generateWigglyPath` for an option set. -/
def wigglyAllPoints (s : ℚ → ℚ) (o : WiggleOptions) : List Point :=
  allPointsOf s (viewBoxOf o).width (viewBoxOf o).height o.waveAmplitude
    o.waveSegmentSize o.borderWidth

/-- The aspect-aware `generateWigglyPath` of `wiggly-border.js`. -/
def generateWigglyPath (s : ℚ → ℚ) (o : WiggleOptions) : PathResult :=
  ⟨wigglyPathFromViewBox s (viewBoxOf o).width (viewBoxOf o).height
      o.waveAmplitude o.waveSegmentSize o.borderWidth,
   (viewBoxOf o).width, (viewBoxOf o).height⟩

/-- `VIEW_BOX_WIDTH` of the older fixed-size source file. -/
def VIEW_BOX_WIDTH : ℚ := 400

/-- `VIEW_BOX_HEIGHT` of the older fixed-size source file. -/
def VIEW_BOX_HEIGHT : ℚ := 300

/-- The segment counts of the older `generateWigglyPath`:
`Math.max(6, Math.floor(VIEW_BOX_WIDTH / size))` and
`Math.max(4, Math.floor(VIEW_BOX_HEIGHT / size))` — floors of the full
viewBox dimensions, not of the inset edge lengths. -/
def oldSegmentCounts (waveSegmentSize : ℚ) : SegmentCounts :=
  ⟨max 6 ⌊VIEW_BOX_WIDTH / waveSegmentSize⌋,
   max 4 ⌊VIEW_BOX_HEIGHT / waveSegmentSize⌋⟩

/-- The older fixed-size `generateWigglyPath` (the first generation of the
pipeline), returning only the path data. -/
def generateWigglyPathOld (s : ℚ → ℚ) (waveAmplitude waveSegmentSize borderWidth : ℚ) :
    List PathCmd :=
  let padding := waveAmplitude + borderWidth
  let horizontalSegments := (oldSegmentCounts waveSegmentSize).horizontal.toNat
  let verticalSegments := (oldSegmentCounts waveSegmentSize).vertical.toNat
  let left := padding
  let right := VIEW_BOX_WIDTH - padding
  let top := padding
  let bottom := VIEW_BOX_HEIGHT - padding
  let topPoints :=
    generateEdgePoints s left top right top horizontalSegments waveAmplitude
      EDGE_SEEDS.top ⟨0, -1⟩
  let rightPoints :=
    generateEdgePoints s right top right bottom verticalSegments waveAmplitude
      EDGE_SEEDS.right ⟨1, 0⟩
  let bottomPoints :=
    generateEdgePoints s right bottom left bottom horizontalSegments waveAmplitude
      EDGE_SEEDS.bottom ⟨0, 1⟩
  let leftPoints :=
    generateEdgePoints s left bottom left top verticalSegments waveAmplitude
      EDGE_SEEDS.left ⟨-1, 0⟩
  let allPoints :=
    topPoints ++ rightPoints.drop 1 ++ bottomPoints.drop 1 ++
      (leftPoints.drop 1).dropLast
  generateSmoothPath allPoints ++ [PathCmd.closePath]

/-- A concrete stand-in for the abstract sine used in closed evaluations:
the constant-zero function (which satisfies the `|s x| ≤ 1` bound). -/
def zeroSin : ℚ → ℚ := fun _ => 0

/-- The option set of the spec's worked example:
`amplitude=4, segmentSize=25, strokeInset=4, targetWidth=400, targetHeight=300`. -/
def exampleOpts : WiggleOptions := ⟨4, 25, 4, 400, 300⟩

/-! ### General helper lemmas -/

lemma rangeMap_getD {α : Type} (f : ℕ → α) (m i : ℕ) (d : α) (h : i < m) :
    (((List.range m).map f).getD i d) = f i := by
  rw [List.getD_eq_getElem?_getD, List.getElem?_map, List.getElem?_range h]
  rfl

lemma countP_map_all_true {α β : Type} (f : α → β) (p : β → Bool) (l : List α)
    (h : ∀ a, p (f a) = true) : (l.map f).countP p = l.length := by
  rw [List.countP_map]
  exact List.countP_eq_length.mpr fun a _ => h a

/-! ### Edge sampler lemmas -/

lemma generateEdgePoints_length (s : ℚ → ℚ) (x1 y1 x2 y2 : ℚ) (n : ℕ)
    (a sd : ℚ) (p : Point) :
    (generateEdgePoints s x1 y1 x2 y2 n a sd p).length = n + 1 := by
  simp only [generateEdgePoints, List.length_map, List.length_range]

lemma generateEdgePoints_head (s : ℚ → ℚ) (x1 y1 x2 y2 : ℚ) (n : ℕ)
    (a sd : ℚ) (p : Point) :
    (generateEdgePoints s x1 y1 x2 y2 n a sd p).head? = some ⟨x1, y1⟩ := by
  simp [generateEdgePoints, List.range_succ_eq_map]

lemma generateEdgePoints_getLast (s : ℚ → ℚ) (x1 y1 x2 y2 : ℚ) (n : ℕ)
    (a sd : ℚ) (p : Point) (hn : 1 ≤ n) :
    (generateEdgePoints s x1 y1 x2 y2 n a sd p).getLast? = some ⟨x2, y2⟩ := by
  have hn0 : (n : ℚ) ≠ 0 := Nat.cast_ne_zero.mpr (by omega)
  simp only [generateEdgePoints, List.range_succ, List.map_append, List.map_cons,
    List.map_nil]
  rw [List.getLast?_concat]
  have hx : x1 + (x2 - x1) / (n : ℚ) * (n : ℚ) = x2 := by field_simp
  have hy : y1 + (y2 - y1) / (n : ℚ) * (n : ℚ) = y2 := by field_simp
  simp [hx, hy]

lemma generateEdgePoints_getD (s : ℚ → ℚ) (x1 y1 x2 y2 : ℚ) (n : ℕ)
    (a sd : ℚ) (p : Point) (i : ℕ) (h : i < n + 1) :
    (generateEdgePoints s x1 y1 x2 y2 n a sd p).getD i ⟨0, 0⟩ =
      if i = 0 ∨ i = n then
        ⟨x1 + (x2 - x1) / (n : ℚ) * (i : ℚ), y1 + (y2 - y1) / (n : ℚ) * (i : ℚ)⟩
      else
        ⟨x1 + (x2 - x1) / (n : ℚ) * (i : ℚ) +
           p.x * getOrganicOffset s (i : ℚ) a sd * (if i % 2 = 0 then 1 else -1),
         y1 + (y2 - y1) / (n : ℚ) * (i : ℚ) +
           p.y * getOrganicOffset s (i : ℚ) a sd * (if i % 2 = 0 then 1 else -1)⟩ := by
  simp only [generateEdgePoints]
  rw [rangeMap_getD _ _ _ _ h]

/-! ### Spline converter lemmas -/

lemma generateSmoothPath_length (pts : List Point) (h : 2 ≤ pts.length) :
    (generateSmoothPath pts).length = pts.length := by
  rw [generateSmoothPath, if_neg (by omega)]
  simp only [List.length_cons, List.length_map, List.length_range]
  omega

lemma generateSmoothPath_countP (pts : List Point) (h : 2 ≤ pts.length) :
    (generateSmoothPath pts).countP isMove = 1 ∧
      (generateSmoothPath pts).countP isCurve = pts.length - 1 ∧
      (generateSmoothPath pts).countP isClose = 0 := by
  rw [generateSmoothPath, if_neg (by omega)]
  refine ⟨?_, ?_, ?_⟩
  · simp [List.countP_cons, List.countP_map, isMove, Function.comp]
  · rw [List.countP_cons, countP_map_all_true _ _ _ fun j => rfl, List.length_range]
    simp [isCurve]
  · simp [List.countP_cons, List.countP_map, isClose, Function.comp]

lemma generateSmoothPath_no_close (pts : List Point) :
    PathCmd.closePath ∉ generateSmoothPath pts := by
  rw [generateSmoothPath]
  by_cases h : pts.length < 2
  · simp [if_pos h]
  · rw [if_neg h]
    intro hmem
    simp only [List.mem_cons, List.mem_map] at hmem
    rcases hmem with h1 | ⟨j, _, h2⟩ <;> simp_all

lemma generateSmoothPath_countP_close_zero (pts : List Point) :
    (generateSmoothPath pts).countP isClose = 0 := by
  rw [List.countP_eq_zero]
  intro c hc hcl
  have hcc : c = PathCmd.closePath := by cases c <;> simp_all [isClose]
  exact generateSmoothPath_no_close pts (hcc ▸ hc)

/-! ### Segment-count bounds and length bookkeeping -/

lemma edgeCounts_horizontal_ge (w h a g b : ℚ) :
    4 ≤ (edgeCounts w h a g b).horizontal := le_max_left _ _

lemma edgeCounts_vertical_ge (w h a g b : ℚ) :
    4 ≤ (edgeCounts w h a g b).vertical := le_max_left _ _

lemma edgeCounts_horizontal_toNat_ge (w h a g b : ℚ) :
    4 ≤ (edgeCounts w h a g b).horizontal.toNat := by
  have := edgeCounts_horizontal_ge w h a g b
  omega

lemma edgeCounts_vertical_toNat_ge (w h a g b : ℚ) :
    4 ≤ (edgeCounts w h a g b).vertical.toNat := by
  have := edgeCounts_vertical_ge w h a g b
  omega

lemma allPointsOf_length (s : ℚ → ℚ) (w h a g b : ℚ) :
    (allPointsOf s w h a g b).length =
      2 * ((edgeCounts w h a g b).horizontal.toNat +
        (edgeCounts w h a g b).vertical.toNat) := by
  have hh := edgeCounts_horizontal_toNat_ge w h a g b
  have hv := edgeCounts_vertical_toNat_ge w h a g b
  simp only [allPointsOf, topPointsOf, rightPointsOf, bottomPointsOf, leftPointsOf,
    List.length_append, List.length_drop, List.length_dropLast,
    generateEdgePoints_length]
  omega

lemma wigglyPathFromViewBox_length (s : ℚ → ℚ) (w h a g b : ℚ) :
    (wigglyPathFromViewBox s w h a g b).length =
      2 * ((edgeCounts w h a g b).horizontal.toNat +
        (edgeCounts w h a g b).vertical.toNat) + 1 := by
  have hh := edgeCounts_horizontal_toNat_ge w h a g b
  have hv := edgeCounts_vertical_toNat_ge w h a g b
  have h2 : 2 ≤ (allPointsOf s w h a g b).length := by
    rw [allPointsOf_length]; omega
  rw [wigglyPathFromViewBox, List.length_append,
    generateSmoothPath_length _ h2, allPointsOf_length]
  rfl

lemma oldSegmentCounts_horizontal_toNat_ge (g : ℚ) :
    6 ≤ (oldSegmentCounts g).horizontal.toNat := by
  have : (6 : ℤ) ≤ (oldSegmentCounts g).horizontal := le_max_left _ _
  omega

lemma oldSegmentCounts_vertical_toNat_ge (g : ℚ) :
    4 ≤ (oldSegmentCounts g).vertical.toNat := by
  have : (4 : ℤ) ≤ (oldSegmentCounts g).vertical := le_max_left _ _
  omega

lemma generateWigglyPathOld_length (s : ℚ → ℚ) (a g b : ℚ) :
    (generateWigglyPathOld s a g b).length =
      2 * ((oldSegmentCounts g).horizontal.toNat +
        (oldSegmentCounts g).vertical.toNat) + 1 := by
  have hh := oldSegmentCounts_horizontal_toNat_ge g
  have hv := oldSegmentCounts_vertical_toNat_ge g
  simp only [generateWigglyPathOld]
  rw [List.length_append]
  have h2 : 2 ≤ (generateEdgePoints s (a + b) (a + b) (VIEW_BOX_WIDTH - (a + b)) (a + b)
        (oldSegmentCounts g).horizontal.toNat a EDGE_SEEDS.top ⟨0, -1⟩ ++
      (generateEdgePoints s (VIEW_BOX_WIDTH - (a + b)) (a + b) (VIEW_BOX_WIDTH - (a + b))
        (VIEW_BOX_HEIGHT - (a + b)) (oldSegmentCounts g).vertical.toNat a
        EDGE_SEEDS.right ⟨1, 0⟩).drop 1 ++
      (generateEdgePoints s (VIEW_BOX_WIDTH - (a + b)) (VIEW_BOX_HEIGHT - (a + b)) (a + b)
        (VIEW_BOX_HEIGHT - (a + b)) (oldSegmentCounts g).horizontal.toNat a
        EDGE_SEEDS.bottom ⟨0, 1⟩).drop 1 ++
      ((generateEdgePoints s (a + b) (VIEW_BOX_HEIGHT - (a + b)) (a + b) (a + b)
        (oldSegmentCounts g).vertical.toNat a EDGE_SEEDS.left ⟨-1, 0⟩).drop 1).dropLast).length := by
    simp only [List.length_append, List.length_drop, List.length_dropLast,
      generateEdgePoints_length]
    omega
  rw [generateSmoothPath_length _ h2]
  simp only [List.length_append, List.length_drop, List.length_dropLast,
    generateEdgePoints_length, List.length_singleton]
  omega

/-! ### Claim theorems -/

/-- Claim C1 (amended): for every pair of edge lengths and every segment size,
`calculateSegments` returns per-axis counts equal to
`max(floor, round(length / segmentSize))` where the per-axis floor is `4` on
both axes (the floors are equal, not horizontal-larger), and for every positive
segment size neither count falls below its floor, even when the segment size
exceeds the edge length. -/
theorem calculateSegments_spec (hl vl ws : ℚ) (_hws : 0 < ws) :
    calculateSegments hl vl ws =
        ⟨max 4 (jsRound (hl / ws)), max 4 (jsRound (vl / ws))⟩ ∧
      4 ≤ (calculateSegments hl vl ws).horizontal ∧
      4 ≤ (calculateSegments hl vl ws).vertical :=
  ⟨rfl, le_max_left _ _, le_max_left _ _⟩

/-- Claim C1 witness: the floor is enforced at the concrete input
`lengths 10, segment size 100` where the segment size exceeds the edge length. -/
theorem calculateSegments_spec_witness :
    (0 : ℚ) < 100 ∧
      (calculateSegments 10 10 100 =
          ⟨max 4 (jsRound ((10 : ℚ) / 100)), max 4 (jsRound ((10 : ℚ) / 100))⟩ ∧
        4 ≤ (calculateSegments 10 10 100).horizontal ∧
        4 ≤ (calculateSegments 10 10 100).vertical) :=
  ⟨by norm_num, calculateSegments_spec 10 10 100 (by norm_num)⟩

/-- Claim C1 counterexample: `calculateSegments` does NOT have a horizontal
floor strictly larger than the vertical floor — no pair of floors with the
horizontal one strictly larger describes the function (both its floors are 4). -/
theorem calculateSegments_floors_equal :
    ¬ ∃ fh fv : ℤ, fv < fh ∧ ∀ hl vl ws : ℚ,
        calculateSegments hl vl ws =
          ⟨max fh (jsRound (hl / ws)), max fv (jsRound (vl / ws))⟩ := by
  rintro ⟨fh, fv, hlt, hfun⟩
  have h := hfun 0 0 1
  have h0 : jsRound ((0 : ℚ) / 1) = 0 := by norm_num [jsRound]
  simp only [calculateSegments, h0, SegmentCounts.mk.injEq] at h
  omega

/-- Claim C2 counterexample: at the spec's example input
(`amplitude 4, segment size 25, inset 4, target 400×300`) the coordinate space
is NOT 400×300 (its height is 400, the base constant, not 300), and the
horizontal segment count is NOT 15. -/
theorem exampleScenario_cex :
    (generateWigglyPath zeroSin exampleOpts).viewBoxHeight ≠ 300 ∧
      (wigglySegments exampleOpts).horizontal ≠ 15 := by
  constructor
  · norm_num [generateWigglyPath, viewBoxOf, calculateViewBox, BASE_VIEWBOX_SIZE,
      exampleOpts]
  · norm_num [wigglySegments, edgeCounts, workingRect, calculateSegments, jsRound,
      viewBoxOf, calculateViewBox, BASE_VIEWBOX_SIZE, exampleOpts]

/-- Claim C2 (amended): at the example input the coordinate space is
`(1600/3) × 400` (height pinned to the base constant, ratio 4:3); the padding
is 8; the working rectangle is `[8, 1576/3] × [8, 392]`; the segment counts are
21 (horizontal) and 15 (vertical); and the top edge's first and last sampled
points are exactly `(8, 8)` and `(1576/3, 8)` — for every sine function. -/
theorem exampleScenario (s : ℚ → ℚ) :
    viewBoxOf exampleOpts = ⟨1600 / 3, BASE_VIEWBOX_SIZE⟩ ∧
      (generateWigglyPath s exampleOpts).viewBoxWidth = 1600 / 3 ∧
      (generateWigglyPath s exampleOpts).viewBoxHeight = 400 ∧
      exampleOpts.waveAmplitude + exampleOpts.borderWidth = 8 ∧
      workingRect (1600 / 3) 400 4 4 = ⟨8, 1576 / 3, 8, 392⟩ ∧
      wigglySegments exampleOpts = ⟨21, 15⟩ ∧
      (wigglyTopPoints s exampleOpts).head? = some ⟨8, 8⟩ ∧
      (wigglyTopPoints s exampleOpts).getLast? = some ⟨1576 / 3, 8⟩ := by
  have hvb : viewBoxOf exampleOpts = ⟨1600 / 3, 400⟩ := by
    norm_num [viewBoxOf, calculateViewBox, BASE_VIEWBOX_SIZE, exampleOpts]
  have hseg : wigglySegments exampleOpts = ⟨21, 15⟩ := by
    norm_num [wigglySegments, edgeCounts, workingRect, calculateSegments, jsRound,
      viewBoxOf, calculateViewBox, BASE_VIEWBOX_SIZE, exampleOpts]
  have hcnt : (edgeCounts (viewBoxOf exampleOpts).width (viewBoxOf exampleOpts).height
      exampleOpts.waveAmplitude exampleOpts.waveSegmentSize
      exampleOpts.borderWidth).horizontal.toNat = 21 := by
    have hs2 : wigglySegments exampleOpts = ⟨21, 15⟩ := hseg
    rw [wigglySegments] at hs2
    rw [hs2]
    rfl
  have htop : wigglyTopPoints s exampleOpts =
      generateEdgePoints s
        (workingRect (viewBoxOf exampleOpts).width (viewBoxOf exampleOpts).height
          exampleOpts.waveAmplitude exampleOpts.borderWidth).left
        (workingRect (viewBoxOf exampleOpts).width (viewBoxOf exampleOpts).height
          exampleOpts.waveAmplitude exampleOpts.borderWidth).top
        (workingRect (viewBoxOf exampleOpts).width (viewBoxOf exampleOpts).height
          exampleOpts.waveAmplitude exampleOpts.borderWidth).right
        (workingRect (viewBoxOf exampleOpts).width (viewBoxOf exampleOpts).height
          exampleOpts.waveAmplitude exampleOpts.borderWidth).top
        21 exampleOpts.waveAmplitude EDGE_SEEDS.top ⟨0, -1⟩ := by
    rw [wigglyTopPoints, topPointsOf, hcnt]
  refine ⟨hvb, ?_, ?_, by norm_num [exampleOpts], ?_, hseg, ?_, ?_⟩
  · simp only [generateWigglyPath]
    rw [hvb]
  · simp only [generateWigglyPath]
    rw [hvb]
  · norm_num [workingRect]
  · rw [htop, generateEdgePoints_head]
    rw [hvb]
    norm_num [workingRect, exampleOpts]
  · rw [htop, generateEdgePoints_getLast _ _ _ _ _ _ _ _ _ (by norm_num)]
    rw [hvb]
    norm_num [workingRect, exampleOpts]

/-- Claim C3 counterexample: with the coordinate space fixed to the older
400×300 viewBox, the aspect-aware pipeline does NOT reproduce the older
fixed-size pipeline at the default parameters (`4, 25, 4`): their segment-count
rules differ (round of the inset edge length with floors 4/4, versus floor of
the full viewBox dimension with floors 6/4), so the two paths have different
numbers of commands. -/
theorem pipelines_differ :
    wigglyPathFromViewBox zeroSin 400 300 4 25 4 ≠ generateWigglyPathOld zeroSin 4 25 4 := by
  intro heq
  have h1 := wigglyPathFromViewBox_length zeroSin 400 300 4 25 4
  have h2 := generateWigglyPathOld_length zeroSin 4 25 4
  have hc1 : edgeCounts 400 300 4 25 4 = ⟨15, 11⟩ := by
    norm_num [edgeCounts, workingRect, calculateSegments, jsRound]
  have hc2 : oldSegmentCounts 25 = ⟨16, 12⟩ := by
    norm_num [oldSegmentCounts, VIEW_BOX_WIDTH, VIEW_BOX_HEIGHT]
  rw [hc1] at h1
  rw [hc2] at h2
  rw [heq, h2] at h1
  norm_num at h1
  omega

/-- Claim C3 (amended): the two pipeline generations differ in the
coordinate-space sizer AND in the segment-count rule; on every parameter set
where the two segment-count rules happen to agree, the aspect-aware pipeline
with its coordinate space fixed to 400×300 produces exactly the older
pipeline's path — all remaining steps (edge sampling, spline conversion,
assembly) are identical. -/
theorem pipelines_agree_on_counts (s : ℚ → ℚ) (a g b : ℚ)
    (hc : edgeCounts 400 300 a g b = oldSegmentCounts g) :
    wigglyPathFromViewBox s 400 300 a g b = generateWigglyPathOld s a g b := by
  simp only [wigglyPathFromViewBox, allPointsOf, topPointsOf, rightPointsOf,
    bottomPointsOf, leftPointsOf, workingRect, generateWigglyPathOld,
    VIEW_BOX_WIDTH, VIEW_BOX_HEIGHT, hc]

/-- Claim C3 witness: at segment size 26 (amplitude 4, border width 4) the two
count rules agree and the two pipelines emit the same path. -/
theorem pipelines_agree_on_counts_witness :
    edgeCounts 400 300 4 26 4 = oldSegmentCounts 26 ∧
      wigglyPathFromViewBox zeroSin 400 300 4 26 4 = generateWigglyPathOld zeroSin 4 26 4 :=
  ⟨by norm_num [edgeCounts, workingRect, calculateSegments, jsRound, oldSegmentCounts,
      VIEW_BOX_WIDTH, VIEW_BOX_HEIGHT],
   pipelines_agree_on_counts zeroSin 4 26 4
     (by norm_num [edgeCounts, workingRect, calculateSegments, jsRound, oldSegmentCounts,
       VIEW_BOX_WIDTH, VIEW_BOX_HEIGHT])⟩

/-- Claim C4: for positive target dimensions, `calculateViewBox` returns a
coordinate space whose width/height ratio equals targetWidth/targetHeight
exactly, with one axis pinned to the base constant: height when the target is
at least as wide as tall, width otherwise (the other axis scaled by the
aspect ratio). -/
theorem calculateViewBox_spec (tw th : ℚ) (h1 : 0 < tw) (h2 : 0 < th) :
    (calculateViewBox tw th).width / (calculateViewBox tw th).height = tw / th ∧
      (th ≤ tw →
        calculateViewBox tw th = ⟨BASE_VIEWBOX_SIZE * (tw / th), BASE_VIEWBOX_SIZE⟩) ∧
      (tw < th →
        calculateViewBox tw th = ⟨BASE_VIEWBOX_SIZE, BASE_VIEWBOX_SIZE * (th / tw)⟩) := by
  have htw : tw ≠ 0 := ne_of_gt h1
  have hth : th ≠ 0 := ne_of_gt h2
  by_cases hc : 1 ≤ tw / th
  · refine ⟨?_, ?_, ?_⟩
    · simp only [calculateViewBox, if_pos hc]
      rw [BASE_VIEWBOX_SIZE]
      field_simp
      ring
    · intro _
      simp only [calculateViewBox, if_pos hc]
    · intro hlt
      exact absurd ((one_le_div h2).mp hc) (by linarith)
  · have hlt : tw < th := by
      by_contra hge
      exact hc ((one_le_div h2).mpr (le_of_not_lt hge))
    refine ⟨?_, ?_, ?_⟩
    · simp only [calculateViewBox, if_neg hc]
      rw [BASE_VIEWBOX_SIZE]
      field_simp
      ring
    · intro hle
      exact absurd hle (not_le.mpr hlt)
    · intro _
      simp only [calculateViewBox, if_neg hc]
      rw [ViewBox.mk.injEq]
      exact ⟨rfl, by rw [div_div_eq_mul_div, mul_div_assoc]⟩

/-- Claim C4 witness: for the square target 300×300 both returned dimensions
equal the base constant. -/
theorem calculateViewBox_spec_witness :
    (0 : ℚ) < 300 ∧ (0 : ℚ) < 300 ∧
      ((calculateViewBox 300 300).width / (calculateViewBox 300 300).height =
          (300 : ℚ) / 300 ∧
        ((300 : ℚ) ≤ 300 →
          calculateViewBox 300 300 =
            ⟨BASE_VIEWBOX_SIZE * ((300 : ℚ) / 300), BASE_VIEWBOX_SIZE⟩) ∧
        ((300 : ℚ) < 300 →
          calculateViewBox 300 300 =
            ⟨BASE_VIEWBOX_SIZE, BASE_VIEWBOX_SIZE * ((300 : ℚ) / 300)⟩)) ∧
      calculateViewBox 300 300 = ⟨BASE_VIEWBOX_SIZE, BASE_VIEWBOX_SIZE⟩ :=
  ⟨by norm_num, by norm_num,
   calculateViewBox_spec 300 300 (by norm_num) (by norm_num),
   by norm_num [calculateViewBox, BASE_VIEWBOX_SIZE]⟩

/-- Claim C5: for every edge and segment count at least 1, `generateEdgePoints`
returns exactly `segmentCount + 1` points, pins the first point to the start
and the last to the end exactly, places each interior point at its linear
interpolation position displaced along the outward normal by the organic
offset times the alternating direction (`+1` even index, `-1` odd), and with
amplitude 0 every point collapses onto its unwaved interpolated position. -/
theorem generateEdgePoints_spec (s : ℚ → ℚ) (x1 y1 x2 y2 : ℚ) (n : ℕ)
    (a sd : ℚ) (p : Point) (hn : 1 ≤ n) :
    (generateEdgePoints s x1 y1 x2 y2 n a sd p).length = n + 1 ∧
      (generateEdgePoints s x1 y1 x2 y2 n a sd p).head? = some ⟨x1, y1⟩ ∧
      (generateEdgePoints s x1 y1 x2 y2 n a sd p).getLast? = some ⟨x2, y2⟩ ∧
      (∀ i : ℕ, 1 ≤ i → i < n →
        (generateEdgePoints s x1 y1 x2 y2 n a sd p).getD i ⟨0, 0⟩ =
          ⟨x1 + (x2 - x1) / (n : ℚ) * (i : ℚ) +
             p.x * getOrganicOffset s (i : ℚ) a sd * (if i % 2 = 0 then 1 else -1),
           y1 + (y2 - y1) / (n : ℚ) * (i : ℚ) +
             p.y * getOrganicOffset s (i : ℚ) a sd * (if i % 2 = 0 then 1 else -1)⟩) ∧
      (a = 0 → ∀ i : ℕ, i ≤ n →
        (generateEdgePoints s x1 y1 x2 y2 n a sd p).getD i ⟨0, 0⟩ =
          ⟨x1 + (x2 - x1) / (n : ℚ) * (i : ℚ),
           y1 + (y2 - y1) / (n : ℚ) * (i : ℚ)⟩) := by
  refine ⟨generateEdgePoints_length s x1 y1 x2 y2 n a sd p,
    generateEdgePoints_head s x1 y1 x2 y2 n a sd p,
    generateEdgePoints_getLast s x1 y1 x2 y2 n a sd p hn, ?_, ?_⟩
  · intro i hi1 hi2
    rw [generateEdgePoints_getD s x1 y1 x2 y2 n a sd p i (by omega)]
    rw [if_neg (by omega)]
  · intro ha i hle
    rw [generateEdgePoints_getD s x1 y1 x2 y2 n a sd p i (by omega)]
    subst ha
    have hz : getOrganicOffset s (i : ℚ) 0 sd = 0 := by simp [getOrganicOffset]
    by_cases hc : i = 0 ∨ i = n
    · rw [if_pos hc]
    · rw [if_neg hc, hz]
      simp [mul_zero, zero_mul, add_zero]

/-- Claim C5 witness: the edge from the origin to `(2, 0)` with two segments
and amplitude 0. -/
theorem generateEdgePoints_spec_witness :
    1 ≤ 2 ∧
      ((generateEdgePoints zeroSin 0 0 2 0 2 0 0 ⟨0, 1⟩).length = 2 + 1 ∧
        (generateEdgePoints zeroSin 0 0 2 0 2 0 0 ⟨0, 1⟩).head? = some ⟨0, 0⟩ ∧
        (generateEdgePoints zeroSin 0 0 2 0 2 0 0 ⟨0, 1⟩).getLast? = some ⟨2, 0⟩ ∧
        (∀ i : ℕ, 1 ≤ i → i < 2 →
          (generateEdgePoints zeroSin 0 0 2 0 2 0 0 ⟨0, 1⟩).getD i ⟨0, 0⟩ =
            ⟨0 + (2 - 0) / ((2 : ℕ) : ℚ) * (i : ℚ) +
               (Point.mk 0 1).x * getOrganicOffset zeroSin (i : ℚ) 0 0 *
                 (if i % 2 = 0 then 1 else -1),
             0 + (0 - 0) / ((2 : ℕ) : ℚ) * (i : ℚ) +
               (Point.mk 0 1).y * getOrganicOffset zeroSin (i : ℚ) 0 0 *
                 (if i % 2 = 0 then 1 else -1)⟩) ∧
        ((0 : ℚ) = 0 → ∀ i : ℕ, i ≤ 2 →
          (generateEdgePoints zeroSin 0 0 2 0 2 0 0 ⟨0, 1⟩).getD i ⟨0, 0⟩ =
            ⟨0 + (2 - 0) / ((2 : ℕ) : ℚ) * (i : ℚ),
             0 + (0 - 0) / ((2 : ℕ) : ℚ) * (i : ℚ)⟩)) :=
  ⟨by norm_num, generateEdgePoints_spec zeroSin 0 0 2 0 2 0 0 ⟨0, 1⟩ (by norm_num)⟩

/-- Claim C6: the wave offset equals
`amplitude * (0.5 + 0.3 sin(1.7 i + seed) + 0.2 sin(2.3 i + 1.5 seed) + 0.25 sin(0.9 i + 0.7 seed))`
and, for any sine bounded by 1 in absolute value and any nonnegative amplitude,
lies in `[-0.25 * amplitude, 1.25 * amplitude]`, so its magnitude is at most
`1.25 * amplitude`. -/
theorem getOrganicOffset_bound (s : ℚ → ℚ) (hs : ∀ x, |s x| ≤ 1)
    (i a sd : ℚ) (ha : 0 ≤ a) :
    getOrganicOffset s i a sd =
        a * (0.5 + 0.3 * s (1.7 * i + sd) + 0.2 * s (2.3 * i + 1.5 * sd) +
          0.25 * s (0.9 * i + 0.7 * sd)) ∧
      a * (-0.25) ≤ getOrganicOffset s i a sd ∧
      getOrganicOffset s i a sd ≤ a * 1.25 ∧
      |getOrganicOffset s i a sd| ≤ 1.25 * a := by
  have e1 : i * 1.7 + sd = 1.7 * i + sd := by ring
  have e2 : i * 2.3 + sd * 1.5 = 2.3 * i + 1.5 * sd := by ring
  have e3 : i * 0.9 + sd * 0.7 = 0.9 * i + 0.7 * sd := by ring
  have hdef : getOrganicOffset s i a sd =
      a * (0.5 + 0.3 * s (1.7 * i + sd) + 0.2 * s (2.3 * i + 1.5 * sd) +
        0.25 * s (0.9 * i + 0.7 * sd)) := by
    simp only [getOrganicOffset]
    rw [e1, e2, e3]
    ring
  obtain ⟨l1, u1⟩ := abs_le.mp (hs (1.7 * i + sd))
  obtain ⟨l2, u2⟩ := abs_le.mp (hs (2.3 * i + 1.5 * sd))
  obtain ⟨l3, u3⟩ := abs_le.mp (hs (0.9 * i + 0.7 * sd))
  have hin : (-0.25 : ℚ) ≤ 0.5 + 0.3 * s (1.7 * i + sd) + 0.2 * s (2.3 * i + 1.5 * sd) +
      0.25 * s (0.9 * i + 0.7 * sd) := by linarith
  have hax : 0.5 + 0.3 * s (1.7 * i + sd) + 0.2 * s (2.3 * i + 1.5 * sd) +
      0.25 * s (0.9 * i + 0.7 * sd) ≤ 1.25 := by linarith
  have hlo : a * (-0.25) ≤ getOrganicOffset s i a sd := by
    rw [hdef]
    exact mul_le_mul_of_nonneg_left hin ha
  have hhi : getOrganicOffset s i a sd ≤ a * 1.25 := by
    rw [hdef]
    exact mul_le_mul_of_nonneg_left hax ha
  refine ⟨hdef, hlo, hhi, abs_le.mpr ⟨by linarith, by linarith⟩⟩

/-- Claim C6 witness: the bound holds at index 2, amplitude 1, seed 3 for the
concrete bounded sine stand-in. -/
theorem getOrganicOffset_bound_witness :
    (∀ x : ℚ, |zeroSin x| ≤ 1) ∧ (0 : ℚ) ≤ 1 ∧
      (getOrganicOffset zeroSin 2 1 3 =
          1 * (0.5 + 0.3 * zeroSin (1.7 * 2 + 3) + 0.2 * zeroSin (2.3 * 2 + 1.5 * 3) +
            0.25 * zeroSin (0.9 * 2 + 0.7 * 3)) ∧
        1 * (-0.25) ≤ getOrganicOffset zeroSin 2 1 3 ∧
        getOrganicOffset zeroSin 2 1 3 ≤ 1 * 1.25 ∧
        |getOrganicOffset zeroSin 2 1 3| ≤ 1.25 * 1) :=
  ⟨fun x => by norm_num [zeroSin], by norm_num,
   getOrganicOffset_bound zeroSin (fun x => by norm_num [zeroSin]) 2 1 3 (by norm_num)⟩

/-- Claim C7: for every point sequence of length at least 2,
`generateSmoothPath` is a move-to the first point followed by one cubic curve
per consecutive pair, with Catmull-Rom-derived control points at tension 0.5
(`cp1 = p1 + tension/3 * (p2 - p0)`, `cp2 = p2 - tension/3 * (p3 - p1)`,
neighbors clamped to the sequence bounds), each curve ending exactly at its
pair's second point; and the converter never emits a close-path command. -/
theorem generateSmoothPath_spec (pts : List Point) (h : 2 ≤ pts.length) :
    generateSmoothPath pts =
        PathCmd.moveTo (pts.getD 0 ⟨0, 0⟩) ::
          (List.range (pts.length - 1)).map (fun (i : ℕ) =>
            PathCmd.curveTo
              ⟨(pts.getD i ⟨0, 0⟩).x +
                 0.5 / 3 * ((pts.getD (i + 1) ⟨0, 0⟩).x -
                   (pts.getD (max 0 ((i : ℤ) - 1)).toNat ⟨0, 0⟩).x),
               (pts.getD i ⟨0, 0⟩).y +
                 0.5 / 3 * ((pts.getD (i + 1) ⟨0, 0⟩).y -
                   (pts.getD (max 0 ((i : ℤ) - 1)).toNat ⟨0, 0⟩).y)⟩
              ⟨(pts.getD (i + 1) ⟨0, 0⟩).x -
                 0.5 / 3 * ((pts.getD (min (pts.length - 1) (i + 2)) ⟨0, 0⟩).x -
                   (pts.getD i ⟨0, 0⟩).x),
               (pts.getD (i + 1) ⟨0, 0⟩).y -
                 0.5 / 3 * ((pts.getD (min (pts.length - 1) (i + 2)) ⟨0, 0⟩).y -
                   (pts.getD i ⟨0, 0⟩).y)⟩
              (pts.getD (i + 1) ⟨0, 0⟩)) ∧
      PathCmd.closePath ∉ generateSmoothPath pts := by
  refine ⟨?_, generateSmoothPath_no_close pts⟩
  simp only [generateSmoothPath, if_neg (show ¬pts.length < 2 by omega)]
  congr 1
  apply List.map_congr_left
  intro i hi
  have hidx : ((max 0 ((i : ℤ) - 1)).toNat) = i - 1 := by omega
  rw [hidx]
  rw [PathCmd.curveTo.injEq]
  refine ⟨?_, ?_, rfl⟩ <;> rw [Point.mk.injEq] <;> constructor <;> ring

/-- Claim C7 witness: the two-point sequence from the origin to `(3, 0)`. -/
theorem generateSmoothPath_spec_witness :
    2 ≤ ([⟨0, 0⟩, ⟨3, 0⟩] : List Point).length ∧
      (generateSmoothPath [⟨0, 0⟩, ⟨3, 0⟩] =
          PathCmd.moveTo (([⟨0, 0⟩, ⟨3, 0⟩] : List Point).getD 0 ⟨0, 0⟩) ::
            (List.range (([⟨0, 0⟩, ⟨3, 0⟩] : List Point).length - 1)).map (fun (i : ℕ) =>
              PathCmd.curveTo
                ⟨(([⟨0, 0⟩, ⟨3, 0⟩] : List Point).getD i ⟨0, 0⟩).x +
                   0.5 / 3 * ((([⟨0, 0⟩, ⟨3, 0⟩] : List Point).getD (i + 1) ⟨0, 0⟩).x -
                     (([⟨0, 0⟩, ⟨3, 0⟩] : List Point).getD (max 0 ((i : ℤ) - 1)).toNat ⟨0, 0⟩).x),
                 (([⟨0, 0⟩, ⟨3, 0⟩] : List Point).getD i ⟨0, 0⟩).y +
                   0.5 / 3 * ((([⟨0, 0⟩, ⟨3, 0⟩] : List Point).getD (i + 1) ⟨0, 0⟩).y -
                     (([⟨0, 0⟩, ⟨3, 0⟩] : List Point).getD (max 0 ((i : ℤ) - 1)).toNat ⟨0, 0⟩).y)⟩
                ⟨(([⟨0, 0⟩, ⟨3, 0⟩] : List Point).getD (i + 1) ⟨0, 0⟩).x -
                   0.5 / 3 * ((([⟨0, 0⟩, ⟨3, 0⟩] : List Point).getD
                       (min (([⟨0, 0⟩, ⟨3, 0⟩] : List Point).length - 1) (i + 2)) ⟨0, 0⟩).x -
                     (([⟨0, 0⟩, ⟨3, 0⟩] : List Point).getD i ⟨0, 0⟩).x),
                 (([⟨0, 0⟩, ⟨3, 0⟩] : List Point).getD (i + 1) ⟨0, 0⟩).y -
                   0.5 / 3 * ((([⟨0, 0⟩, ⟨3, 0⟩] : List Point).getD
                       (min (([⟨0, 0⟩, ⟨3, 0⟩] : List Point).length - 1) (i + 2)) ⟨0, 0⟩).y -
                     (([⟨0, 0⟩, ⟨3, 0⟩] : List Point).getD i ⟨0, 0⟩).y)⟩
                (([⟨0, 0⟩, ⟨3, 0⟩] : List Point).getD (i + 1) ⟨0, 0⟩)) ∧
        PathCmd.closePath ∉ generateSmoothPath [⟨0, 0⟩, ⟨3, 0⟩]) :=
  ⟨by norm_num, generateSmoothPath_spec [⟨0, 0⟩, ⟨3, 0⟩] (by norm_num)⟩

/-- Claim C8: for every parameter set the assembled point sequence is the top
points, then the right points without their first, then the bottom points
without their first, then the left points without their first and last; the
dropped points are exactly the duplicates of the neighboring edge's endpoint
(each edge's last point equals the next edge's first point, cyclically); and
the emitted command list ends with a single close-path command. -/
theorem wigglyAssembly_spec (s : ℚ → ℚ) (o : WiggleOptions) :
    wigglyAllPoints s o =
        wigglyTopPoints s o ++ (wigglyRightPoints s o).drop 1 ++
          (wigglyBottomPoints s o).drop 1 ++
          ((wigglyLeftPoints s o).drop 1).dropLast ∧
      (wigglyTopPoints s o).getLast? = (wigglyRightPoints s o).head? ∧
      (wigglyRightPoints s o).getLast? = (wigglyBottomPoints s o).head? ∧
      (wigglyBottomPoints s o).getLast? = (wigglyLeftPoints s o).head? ∧
      (wigglyLeftPoints s o).getLast? = (wigglyTopPoints s o).head? ∧
      (generateWigglyPath s o).pathData.getLast? = some PathCmd.closePath ∧
      (generateWigglyPath s o).pathData.countP isClose = 1 := by
  have hh : 1 ≤ (edgeCounts (viewBoxOf o).width (viewBoxOf o).height o.waveAmplitude
      o.waveSegmentSize o.borderWidth).horizontal.toNat := by
    have := edgeCounts_horizontal_toNat_ge (viewBoxOf o).width (viewBoxOf o).height
      o.waveAmplitude o.waveSegmentSize o.borderWidth
    omega
  have hv : 1 ≤ (edgeCounts (viewBoxOf o).width (viewBoxOf o).height o.waveAmplitude
      o.waveSegmentSize o.borderWidth).vertical.toNat := by
    have := edgeCounts_vertical_toNat_ge (viewBoxOf o).width (viewBoxOf o).height
      o.waveAmplitude o.waveSegmentSize o.borderWidth
    omega
  refine ⟨rfl, ?_, ?_, ?_, ?_, ?_, ?_⟩
  · simp only [wigglyTopPoints, wigglyRightPoints, topPointsOf, rightPointsOf]
    rw [generateEdgePoints_getLast _ _ _ _ _ _ _ _ _ hh, generateEdgePoints_head]
  · simp only [wigglyRightPoints, wigglyBottomPoints, rightPointsOf, bottomPointsOf]
    rw [generateEdgePoints_getLast _ _ _ _ _ _ _ _ _ hv, generateEdgePoints_head]
  · simp only [wigglyBottomPoints, wigglyLeftPoints, bottomPointsOf, leftPointsOf]
    rw [generateEdgePoints_getLast _ _ _ _ _ _ _ _ _ hh, generateEdgePoints_head]
  · simp only [wigglyLeftPoints, wigglyTopPoints, leftPointsOf, topPointsOf]
    rw [generateEdgePoints_getLast _ _ _ _ _ _ _ _ _ hv, generateEdgePoints_head]
  · simp only [generateWigglyPath, wigglyPathFromViewBox]
    rw [List.getLast?_concat]
  · simp only [generateWigglyPath, wigglyPathFromViewBox]
    rw [List.countP_append, generateSmoothPath_countP_close_zero]
    simp [List.countP_cons, isClose]

/-- Claim C9: a point sequence with fewer than two points yields the empty
path — a defined empty output, not an error. -/
theorem generateSmoothPath_degenerate (pts : List Point) (h : pts.length < 2) :
    generateSmoothPath pts = [] := by
  rw [generateSmoothPath, if_pos h]

/-- Claim C9 witness: the empty sequence yields the empty path. -/
theorem generateSmoothPath_degenerate_witness :
    ([] : List Point).length < 2 ∧ generateSmoothPath [] = [] :=
  ⟨by norm_num, generateSmoothPath_degenerate [] (by norm_num)⟩

/-- Claim C10: for every parameter set with horizontal count `h` and vertical
count `v`, the assembled sequence has exactly `2 * (h + v)` points
(`h + 1` from the top, `v` from the right, `h` from the bottom, `v - 1` from
the left), and the emitted path consists of exactly one move-to,
`2 * (h + v) - 1` cubic curves, and one close-path. -/
theorem generateWigglyPath_counts (s : ℚ → ℚ) (o : WiggleOptions) :
    (wigglyAllPoints s o).length =
        2 * ((wigglySegments o).horizontal.toNat + (wigglySegments o).vertical.toNat) ∧
      (wigglyTopPoints s o).length = (wigglySegments o).horizontal.toNat + 1 ∧
      ((wigglyRightPoints s o).drop 1).length = (wigglySegments o).vertical.toNat ∧
      ((wigglyBottomPoints s o).drop 1).length = (wigglySegments o).horizontal.toNat ∧
      (((wigglyLeftPoints s o).drop 1).dropLast).length =
        (wigglySegments o).vertical.toNat - 1 ∧
      (generateWigglyPath s o).pathData.countP isMove = 1 ∧
      (generateWigglyPath s o).pathData.countP isCurve =
        2 * ((wigglySegments o).horizontal.toNat + (wigglySegments o).vertical.toNat) - 1 ∧
      (generateWigglyPath s o).pathData.countP isClose = 1 := by
  have hh := edgeCounts_horizontal_toNat_ge (viewBoxOf o).width (viewBoxOf o).height
    o.waveAmplitude o.waveSegmentSize o.borderWidth
  have hv := edgeCounts_vertical_toNat_ge (viewBoxOf o).width (viewBoxOf o).height
    o.waveAmplitude o.waveSegmentSize o.borderWidth
  have h2 : 2 ≤ (allPointsOf s (viewBoxOf o).width (viewBoxOf o).height o.waveAmplitude
      o.waveSegmentSize o.borderWidth).length := by
    rw [allPointsOf_length]
    omega
  obtain ⟨hm, hc, hz⟩ := generateSmoothPath_countP _ h2
  refine ⟨?_, ?_, ?_, ?_, ?_, ?_, ?_, ?_⟩
  · rw [wigglyAllPoints, allPointsOf_length]
    rfl
  · simp only [wigglyTopPoints, topPointsOf, wigglySegments, generateEdgePoints_length]
  · simp only [wigglyRightPoints, rightPointsOf, wigglySegments, List.length_drop,
      generateEdgePoints_length]
    omega
  · simp only [wigglyBottomPoints, bottomPointsOf, wigglySegments, List.length_drop,
      generateEdgePoints_length]
    omega
  · simp only [wigglyLeftPoints, leftPointsOf, wigglySegments, List.length_dropLast,
      List.length_drop, generateEdgePoints_length]
    omega
  · simp only [generateWigglyPath, wigglyPathFromViewBox]
    rw [List.countP_append, hm]
    simp [List.countP_cons, isMove]
  · simp only [generateWigglyPath, wigglyPathFromViewBox]
    rw [List.countP_append, hc, allPointsOf_length]
    have hone : ([PathCmd.closePath].countP isCurve) = 0 := by
      simp [List.countP_cons, isCurve]
    rw [hone, wigglySegments]
    omega
  · simp only [generateWigglyPath, wigglyPathFromViewBox]
    rw [List.countP_append, generateSmoothPath_countP_close_zero]
    simp [List.countP_cons, isClose]
